import Mathlib

/-!
Verification of the ECS service reconciliation module (ecs_service.py).

The module reconciles a desired ECS service specification against the live
service state: it fetches the current service, decides whether to create,
update, delete or do nothing, issues the single mutating call, and optionally
waits for stabilization.  This file gives a shallow embedding of the
reconciliation core and proves properties about it:

- PVal models the Python values that appear in the dictionaries the module
  compares and assembles: None, ints, strings, the int-valued
  deploymentConfiguration sub-dict, and the list of load-balancer dicts.
- check_for_update, update_args, create_args, delete_service and main_run
  are direct translations of the corresponding Python functions.
- The JSON normalization layer (json_serial and fix_datetime) is modelled
  over a mutual inductive family JVal of JSON-like Python values.

Python truthiness conventions are modelled explicitly: None and 0 are falsy
for ints, None and the empty string are falsy for strings, and an empty dict
is falsy.
-/

/-- LbVal is the type of values inside a load-balancer dict: the module puts
strings (loadBalancerName, containerName) and an int (containerPort) there. -/
inductive LbVal where
  | lint (n : Int)
  | lstr (s : String)
deriving DecidableEq, Repr

/-- PVal models the Python values occurring in the dictionaries the module
builds and compares: None, integers, strings, the int-valued
deploymentConfiguration sub-dict, and the singleton list of load-balancer
dicts that create_service assembles. -/
inductive PVal where
  | pnone
  | pint (n : Int)
  | pstr (s : String)
  | pdict (xs : List (String × Int))
  | plblist (xs : List (List (String × LbVal)))
deriving DecidableEq, Repr

/-- Conversion of an optional int parameter to the Python value stored in a
dict: None stays None, an int stays an int. -/
def optIntToPVal : Option Int → PVal
  | none => .pnone
  | some n => .pint n

/-- Python truthiness of an optional int parameter: None and 0 are falsy. -/
def truthyOptInt : Option Int → Bool
  | none => false
  | some n => n != 0

/-- Python truthiness of an optional string parameter: None and the empty
string are falsy. -/
def truthyOptStr : Option String → Bool
  | none => false
  | some s => s != ""

/-- Existing models the service dict returned by describeServices: its items
are the (key, value) pairs of the Python dict, in insertion order. -/
structure Existing where
  items : List (String × PVal)
deriving DecidableEq, Repr

/-- DesiredParams is the slice of the module parameters that
check_for_update reads from the desired state. -/
structure DesiredParams where
  desired_count : Option Int
  min_healthy_percent : Option Int
  max_percent : Option Int
deriving DecidableEq, Repr

/-- AttributeError message raised by Python when items is called on None,
which happens in check_for_update when the existing service has no
deploymentConfiguration entry. -/
def attrErrItems : String := "AttributeError: NoneType object has no attribute items"

/-- Embedding of EcsServiceManager.check_for_update.  It builds a target dict
with the resolved task definition ARN and the desired count, a target
deployment-config dict containing minimumHealthyPercent and maximumPercent
only when the supplied parameter is truthy (so a supplied 0 is skipped), and
returns the truthiness of the Python expression
listDiff(target, existing) or listDiff(targetDC, existingDC).
When the first list is non-empty Python returns it without evaluating the
second comprehension; when the target deployment config is non-empty but the
existing deploymentConfiguration entry is missing or not a dict, evaluating
items on it raises. -/
def check_for_update (desired : DesiredParams) (existing : Existing)
    (task_definition_arn : String) : Except String Bool :=
  let target : List (String × PVal) :=
    [("taskDefinition", .pstr task_definition_arn),
     ("desiredCount", optIntToPVal desired.desired_count)]
  let target_deployment_config : List (String × Int) :=
    (if truthyOptInt desired.min_healthy_percent then
      [("minimumHealthyPercent", desired.min_healthy_percent.getD 0)] else []) ++
    (if truthyOptInt desired.max_percent then
      [("maximumPercent", desired.max_percent.getD 0)] else [])
  let existing_deployment_config : PVal :=
    (existing.items.lookup "deploymentConfiguration").getD .pnone
  let diff_top := target.filter (fun item => decide (item ∉ existing.items))
  if diff_top ≠ [] then
    .ok true
  else if target_deployment_config = [] then
    .ok false
  else
    match existing_deployment_config with
    | .pdict xs =>
        .ok ((target_deployment_config.filter (fun item => decide (item ∉ xs))) ≠ [])
    | _ => .error attrErrItems

/-- Decision is the outcome of the diff engine for an ACTIVE service. -/
inductive Decision where
  | NoOp
  | Update
deriving DecidableEq, Repr

/-- Decision taken by main for an existing ACTIVE service: Update exactly
when check_for_update is truthy. -/
def decide_active (desired : DesiredParams) (existing : Existing)
    (task_definition_arn : String) : Except String Decision :=
  (check_for_update desired existing task_definition_arn).map
    (fun b => if b then .Update else .NoOp)

/-- Concrete observed service used in counterexamples: ACTIVE, desired count
2, task definition arn td3, deployment configuration 50 and 200 percent. -/
def exService : Existing :=
  ⟨[("status", .pstr "ACTIVE"),
    ("taskDefinition", .pstr "td3"),
    ("desiredCount", .pint 2),
    ("deploymentConfiguration", .pdict
      [("minimumHealthyPercent", 50), ("maximumPercent", 200)])]⟩

example : check_for_update ⟨some 2, none, none⟩ exService "td3" = .ok false := rfl

example : check_for_update ⟨some 4, none, none⟩ exService "td3" = .ok true := rfl

example : check_for_update ⟨some 2, some 60, none⟩ exService "td3" = .ok true := rfl

example : check_for_update ⟨some 2, some 0, none⟩ exService "td3" = .ok false := rfl

/-- ApiCall records one call issued to the collaborator API (boto3 ecs
client), in issue order.  The wait constructor carries the boto3 waiter name
requested through get_waiter. -/
inductive ApiCall where
  | describeServices (cluster service : String)
  | describeTaskDefinition (task_definition : String)
  | createService (args : List (String × PVal))
  | updateService (args : List (String × PVal))
  | deleteService (cluster service : String)
  | wait (waiterName : String) (cluster service : String)
deriving DecidableEq, Repr

/-- A call is mutating when it is createService, updateService or
deleteService; describe calls and waiter polling are read-only. -/
def ApiCall.isMutating : ApiCall → Bool
  | .createService _ => true
  | .updateService _ => true
  | .deleteService _ _ => true
  | _ => false

/-- TaskDef models the relevant part of the describeTaskDefinition
response. -/
structure TaskDef where
  status : String
  taskDefinitionArn : String
deriving DecidableEq, Repr

/-- Oracle fixes the collaborator responses for one run: the describe
responses, the service representation returned by create and update, and
success flags for each fallible raw API call. -/
structure Oracle where
  describeServicesResp : Option Existing
  describeTaskDefResp : TaskDef
  serviceAfter : Existing
  createOk : Bool
  updateOk : Bool
  deleteOk : Bool
  waiterOk : Bool
deriving DecidableEq, Repr

/-- Embedding of EcsServiceManager.describe_services: one read-only call,
returning the first service of the response or None. -/
def describe_services (o : Oracle) (cluster_name service_name : String) :
    List ApiCall × Except String (Option Existing) :=
  ([.describeServices cluster_name service_name], .ok o.describeServicesResp)

/-- Embedding of EcsServiceManager.describe_task_definition: one read-only
call returning the task definition. -/
def describe_task_definition (o : Oracle) (task_definition : String) :
    List ApiCall × Except String TaskDef :=
  ([.describeTaskDefinition task_definition], .ok o.describeTaskDefResp)

/-- Argument dict assembled by EcsServiceManager.update_service: cluster,
service and desiredCount always; taskDefinition only when the parameter is
truthy; deploymentConfiguration only when at least one of
minimumHealthyPercent and maximumPercent was inserted, each guarded by
truthiness of its parameter. -/
def update_args (cluster_name service_name : String) (desired_count : Option Int)
    (task_definition : Option String) (min_healthy_percent max_percent : Option Int) :
    List (String × PVal) :=
  let deployment_config : List (String × Int) :=
    (if truthyOptInt min_healthy_percent then
      [("minimumHealthyPercent", min_healthy_percent.getD 0)] else []) ++
    (if truthyOptInt max_percent then
      [("maximumPercent", max_percent.getD 0)] else [])
  [("cluster", .pstr cluster_name), ("service", .pstr service_name),
   ("desiredCount", optIntToPVal desired_count)] ++
  (if truthyOptStr task_definition then
    [("taskDefinition", .pstr (task_definition.getD ""))] else []) ++
  (if deployment_config ≠ [] then
    [("deploymentConfiguration", .pdict deployment_config)] else [])

/-- Embedding of EcsServiceManager.update_service: issues the updateService
call; on failure it fails the module; on success, when wait_until_stable is
set it runs the services_stable waiter and re-describes the service,
returning that description, otherwise it returns the response service. -/
def update_service (o : Oracle) (wait_until_stable : Bool)
    (cluster_name service_name : String) (desired_count : Option Int)
    (task_definition : Option String) (min_healthy_percent max_percent : Option Int) :
    List ApiCall × Except String (Option Existing) :=
  let args := update_args cluster_name service_name desired_count
    task_definition min_healthy_percent max_percent
  if o.updateOk then
    if wait_until_stable then
      if o.waiterOk then
        ([.updateService args, .wait "services_stable" cluster_name service_name,
          .describeServices cluster_name service_name],
         .ok o.describeServicesResp)
      else
        ([.updateService args, .wait "services_stable" cluster_name service_name],
         .error "fail_json: update_service")
    else
      ([.updateService args], .ok (some o.serviceAfter))
  else
    ([.updateService args], .error "fail_json: update_service")

/-- Embedding of EcsServiceManager.delete_service: first an update forcing
desiredCount to 0 (wait flag False, no task definition, no deployment
configuration), then the deleteService call, then, when wait is set, the
waiter the source requests through get_waiter with name services_stable,
and finally a describe returning the final state.  A failure at any step
fails the module and stops the sequence. -/
def delete_service (o : Oracle) (cluster_name service_name : String) (wait : Bool) :
    List ApiCall × Except String (Option Existing) :=
  let (tr1, r1) := update_service o false cluster_name service_name (some 0)
    none none none
  match r1 with
  | .error e => (tr1, .error e)
  | .ok _ =>
    let tr2 := tr1 ++ [.deleteService cluster_name service_name]
    if o.deleteOk then
      if wait then
        let tr3 := tr2 ++ [.wait "services_stable" cluster_name service_name]
        if o.waiterOk then
          (tr3 ++ [.describeServices cluster_name service_name],
           .ok o.describeServicesResp)
        else
          (tr3, .error "fail_json: delete_service")
      else
        (tr2 ++ [.describeServices cluster_name service_name],
         .ok o.describeServicesResp)
    else
      (tr2, .error "fail_json: delete_service")

/-- Argument dict assembled by EcsServiceManager.create_service: cluster,
serviceName, desiredCount and taskDefinition always; role, the
load-balancer entries and the deployment-configuration entries only when
the corresponding parameter is truthy; the loadBalancers key is the
singleton list of the assembled load-balancer dict when that dict is
non-empty. -/
def create_args (cluster_name service_name : String) (desired_count : Option Int)
    (task_definition : Option String) (load_balancer container_name : Option String)
    (container_port : Option Int) (role : Option String)
    (min_healthy_percent max_percent : Option Int) : List (String × PVal) :=
  let load_balancers : List (String × LbVal) :=
    (if truthyOptStr load_balancer then
      [("loadBalancerName", .lstr (load_balancer.getD ""))] else []) ++
    (if truthyOptStr container_name then
      [("containerName", .lstr (container_name.getD ""))] else []) ++
    (if truthyOptInt container_port then
      [("containerPort", .lint (container_port.getD 0))] else [])
  let deployment_config : List (String × Int) :=
    (if truthyOptInt min_healthy_percent then
      [("minimumHealthyPercent", min_healthy_percent.getD 0)] else []) ++
    (if truthyOptInt max_percent then
      [("maximumPercent", max_percent.getD 0)] else [])
  [("cluster", .pstr cluster_name), ("serviceName", .pstr service_name),
   ("desiredCount", optIntToPVal desired_count),
   ("taskDefinition", .pstr (task_definition.getD ""))] ++
  (if truthyOptStr role then [("role", .pstr (role.getD ""))] else []) ++
  (if deployment_config ≠ [] then
    [("deploymentConfiguration", .pdict deployment_config)] else []) ++
  (if load_balancers ≠ [] then
    [("loadBalancers", .plblist [load_balancers])] else [])

/-- Embedding of EcsServiceManager.create_service: issues the createService
call; on success, when wait_until_stable is set it runs the services_stable
waiter and re-describes the service. -/
def create_service (o : Oracle) (wait_until_stable : Bool)
    (cluster_name service_name : String) (desired_count : Option Int)
    (task_definition : Option String) (load_balancer container_name : Option String)
    (container_port : Option Int) (role : Option String)
    (min_healthy_percent max_percent : Option Int) :
    List ApiCall × Except String (Option Existing) :=
  let args := create_args cluster_name service_name desired_count task_definition
    load_balancer container_name container_port role min_healthy_percent max_percent
  if o.createOk then
    if wait_until_stable then
      if o.waiterOk then
        ([.createService args, .wait "services_stable" cluster_name service_name,
          .describeServices cluster_name service_name],
         .ok o.describeServicesResp)
      else
        ([.createService args, .wait "services_stable" cluster_name service_name],
         .error "fail_json: create_service")
    else
      ([.createService args], .ok (some o.serviceAfter))
  else
    ([.createService args], .error "fail_json: create_service")

/-- Params models the module parameters after the Ansible argument-spec
layer: name and state are required strings, cluster defaults to the string
default, all remaining fields are optional with None default except the two
wait flags whose defaults are False and True. -/
structure Params where
  name : String
  state : String
  cluster : String
  task_definition : Option String
  load_balancer : Option String
  container_name : Option String
  container_port : Option Int
  role : Option String
  desired_count : Option Int
  min_healthy_percent : Option Int
  max_percent : Option Int
  wait_until_stable : Bool
  wait_until_inactive : Bool
deriving DecidableEq, Repr

/-- Chained equality test from the input validation in main: the None flags
of load_balancer, role, container_port and container_name must all be equal,
so the four fields are either all absent or all supplied. -/
def lbConsistent (p : Params) : Bool :=
  (p.load_balancer.isNone == p.role.isNone) &&
  (p.role.isNone == p.container_port.isNone) &&
  (p.container_port.isNone == p.container_name.isNone)

/-- Number of supplied fields among load_balancer, container_name,
container_port and role. -/
def suppliedLbFields (p : Params) : Nat :=
  (if p.load_balancer.isSome then 1 else 0) +
  (if p.container_name.isSome then 1 else 0) +
  (if p.container_port.isSome then 1 else 0) +
  (if p.role.isSome then 1 else 0)

/-- Input validation block of main, run before the service manager is
constructed: when state is present, desired_count and task_definition must
be supplied and the load-balancer fields must be all present or all absent.
Returns the fail_json message, or None when validation passes. -/
def validate_inputs (p : Params) : Option String :=
  if p.state = "present" then
    if p.desired_count = none then
      some "To ensure the service is present, the desired_count must be specified"
    else if p.task_definition = none then
      some "To ensure the service is present, a task_definition must be specified"
    else if ¬ lbConsistent p then
      some "When configuring load_balancer, container_name, container_port or role - you must specify load_balancer, container_name, container_port and role"
    else
      none
  else
    none

/-- Truthiness of the Python condition existing and existing.get(status) ==
ACTIVE: None and the empty dict are falsy, otherwise the status entry must
be the string ACTIVE. -/
def existingActive : Option Existing → Bool
  | none => false
  | some e => e.items != [] && (e.items.lookup "status" == some (.pstr "ACTIVE"))

/-- Slice of the module parameters passed to check_for_update as the desired
state. -/
def Params.desired (p : Params) : DesiredParams :=
  ⟨p.desired_count, p.min_healthy_percent, p.max_percent⟩

/-- MainResult models the results dict of a successful run: the changed flag
and the service entry when one was stored (before JSON normalization). -/
structure MainResult where
  changed : Bool
  service : Option (Option Existing)
deriving DecidableEq, Repr

/-- Embedding of main after the boto availability checks: validate inputs,
describe the existing service, then branch on state.  For state absent
against an ACTIVE service the delete sequence runs unless check mode is on,
and changed is set.  For state present the task definition is resolved and
must be ACTIVE; an absent or non-ACTIVE service is created, an ACTIVE one is
updated when check_for_update is truthy, both guarded by check mode, and
otherwise the existing service is returned unchanged.  Every other state
falls through to an unchanged successful exit. -/
def main_run (p : Params) (o : Oracle) (check_mode : Bool) :
    List ApiCall × Except String MainResult :=
  match validate_inputs p with
  | some msg => ([], .error msg)
  | none =>
    let (tr0, _) := describe_services o p.cluster p.name
    let existing := o.describeServicesResp
    if p.state = "absent" ∧ existingActive existing then
      if check_mode then
        (tr0, .ok ⟨true, none⟩)
      else
        let (tr1, r1) := delete_service o p.cluster p.name p.wait_until_inactive
        match r1 with
        | .error e => (tr0 ++ tr1, .error e)
        | .ok svc => (tr0 ++ tr1, .ok ⟨true, some svc⟩)
    else if p.state = "present" then
      let (trTd, _) := describe_task_definition o (p.task_definition.getD "")
      let td := o.describeTaskDefResp
      if td.status ≠ "ACTIVE" then
        (tr0 ++ trTd, .error "You must specify an active task definition")
      else
        let task_definition_arn := td.taskDefinitionArn
        if ¬ existingActive existing then
          if check_mode then
            (tr0 ++ trTd, .ok ⟨true, none⟩)
          else
            let (tr1, r1) := create_service o p.wait_until_stable p.cluster p.name
              p.desired_count p.task_definition p.load_balancer p.container_name
              p.container_port p.role p.min_healthy_percent p.max_percent
            match r1 with
            | .error e => (tr0 ++ trTd ++ tr1, .error e)
            | .ok svc => (tr0 ++ trTd ++ tr1, .ok ⟨true, some svc⟩)
        else
          match check_for_update p.desired ((existing).getD ⟨[]⟩) task_definition_arn with
          | .error e => (tr0 ++ trTd, .error e)
          | .ok true =>
            if check_mode then
              (tr0 ++ trTd, .ok ⟨true, none⟩)
            else
              let (tr1, r1) := update_service o p.wait_until_stable p.cluster p.name
                p.desired_count p.task_definition p.min_healthy_percent p.max_percent
              match r1 with
              | .error e => (tr0 ++ trTd ++ tr1, .error e)
              | .ok svc => (tr0 ++ trTd ++ tr1, .ok ⟨true, some svc⟩)
          | .ok false =>
            (tr0 ++ trTd, .ok ⟨false, some existing⟩)
    else
      (tr0, .ok ⟨false, none⟩)

/-- PyDatetime models a Python datetime value carried inside a boto3
response. -/
structure PyDatetime where
  year : Nat
  month : Nat
  day : Nat
  hour : Nat
  minute : Nat
  second : Nat
  microsecond : Nat
deriving DecidableEq, Repr

/-- Left-pad the decimal rendering of a number with zeros to the given
width, as Python datetime formatting does. -/
def padNum (width n : Nat) : String :=
  let s := toString n
  String.mk (List.replicate (width - s.length) '0') ++ s

/-- ISO-8601 rendering produced by the Python datetime isoformat method:
date, the letter T, time, and the microsecond part only when it is
non-zero. -/
def PyDatetime.isoformat (d : PyDatetime) : String :=
  padNum 4 d.year ++ "-" ++ padNum 2 d.month ++ "-" ++ padNum 2 d.day ++ "T" ++
  padNum 2 d.hour ++ ":" ++ padNum 2 d.minute ++ ":" ++ padNum 2 d.second ++
  (if d.microsecond = 0 then "" else "." ++ padNum 6 d.microsecond)

mutual

/-- JVal models the Python values a boto3 service representation is built
from: the JSON-native values, datetime values, a constructor for any other
non-serializable object, and nested lists and string-keyed dicts. -/
inductive JVal where
  | jnull
  | jbool (b : Bool)
  | jint (n : Int)
  | jstr (s : String)
  | jdatetime (d : PyDatetime)
  | junserializable (tag : String)
  | jarr (xs : JArr)
  | jobj (xs : JObj)

inductive JArr where
  | anil
  | acons (v : JVal) (rest : JArr)

inductive JObj where
  | onil
  | ocons (k : String) (v : JVal) (rest : JObj)

end

/-- Embedding of json_serial, the default serializer handed to json.dumps:
a datetime is rendered through isoformat, any other object raises
TypeError. -/
def json_serial : JVal → Except String String
  | .jdatetime d => .ok d.isoformat
  | _ => .error "Type not serializable"

mutual

/-- Embedding of fix_datetime, which round-trips a result through
json.dumps with default json_serial and json.loads: JSON-native values
survive unchanged, every value json.dumps cannot serialize natively is
replaced by the string json_serial returns for it (so a datetime becomes
its isoformat string and any other foreign object raises), and lists and
dicts are rewritten elementwise. -/
def fix_datetime : JVal → Except String JVal
  | .jnull => .ok .jnull
  | .jbool b => .ok (.jbool b)
  | .jint n => .ok (.jint n)
  | .jstr s => .ok (.jstr s)
  | .jdatetime d => (json_serial (.jdatetime d)).map .jstr
  | .junserializable t => (json_serial (.junserializable t)).map .jstr
  | .jarr xs => (fix_datetime_arr xs).map .jarr
  | .jobj xs => (fix_datetime_obj xs).map .jobj

def fix_datetime_arr : JArr → Except String JArr
  | .anil => .ok .anil
  | .acons v rest => do pure (.acons (← fix_datetime v) (← fix_datetime_arr rest))

def fix_datetime_obj : JObj → Except String JObj
  | .onil => .ok .onil
  | .ocons k v rest => do pure (.ocons k (← fix_datetime v) (← fix_datetime_obj rest))

end

mutual

/-- Presence of a native datetime value anywhere in a JSON-like value. -/
def hasDatetime : JVal → Bool
  | .jdatetime _ => true
  | .jarr xs => hasDatetimeArr xs
  | .jobj xs => hasDatetimeObj xs
  | _ => false

def hasDatetimeArr : JArr → Bool
  | .anil => false
  | .acons v rest => hasDatetime v || hasDatetimeArr rest

def hasDatetimeObj : JObj → Bool
  | .onil => false
  | .ocons _ v rest => hasDatetime v || hasDatetimeObj rest

end

mutual

/-- Presence of a non-serializable, non-datetime object anywhere in a
JSON-like value. -/
def hasForeign : JVal → Bool
  | .junserializable _ => true
  | .jarr xs => hasForeignArr xs
  | .jobj xs => hasForeignObj xs
  | _ => false

def hasForeignArr : JArr → Bool
  | .anil => false
  | .acons v rest => hasForeign v || hasForeignArr rest

def hasForeignObj : JObj → Bool
  | .onil => false
  | .ocons _ v rest => hasForeign v || hasForeignObj rest

end

/-- Observed service for the C8 scenario: ACTIVE, desired count 2, task
definition already equal to the resolved ARN. -/
def obsC8 : Existing :=
  ⟨[("status", .pstr "ACTIVE"),
    ("taskDefinition", .pstr "tdarn3"),
    ("desiredCount", .pint 2)]⟩

/-- Oracle whose raw calls all succeed, describing exService. -/
def oAllOk : Oracle :=
  ⟨some exService, ⟨"ACTIVE", "td3"⟩, exService, true, true, true, true⟩

/-- Oracle for a cluster in which the service does not exist. -/
def oAbsent : Oracle :=
  ⟨none, ⟨"ACTIVE", "td3"⟩, exService, true, true, true, true⟩

/-- Oracle for the C8 scenario, resolving the task definition to the ARN
already recorded on obsC8. -/
def oC8 : Oracle :=
  ⟨some obsC8, ⟨"ACTIVE", "tdarn3"⟩, exService, true, true, true, true⟩

/-- Parameters deleting the service svc-a. -/
def pAbsent : Params :=
  ⟨"svc-a", "absent", "default", none, none, none, none, none, none, none, none,
   false, true⟩

/-- Parameters for state present supplying only the desired count. -/
def pOnlyCount : Params :=
  ⟨"svc-a", "present", "default", none, none, none, none, none, some 4, none, none,
   false, true⟩

/-- Parameters for state present supplying desired count 4 and a falsy
(empty-string) task definition. -/
def pEmptyTd : Params :=
  ⟨"svc-a", "present", "default", some "", none, none, none, none, some 4, none, none,
   false, true⟩

/-- Parameters for state present supplying only one of the four
load-balancer fields. -/
def pPartialLb : Params :=
  ⟨"svc-a", "present", "default", some "td3", some "my-elb", none, none, none,
   some 2, none, none, false, true⟩

/-- Sample datetime and a sample boto3-style service representation holding
one native datetime field. -/
def dtSample : PyDatetime := ⟨2016, 3, 1, 12, 0, 5, 0⟩

/-- Sample service representation with a name field and a createdAt
datetime field. -/
def jSample : JVal :=
  .jobj (.ocons "serviceName" (.jstr "svc-a")
    (.ocons "createdAt" (.jdatetime dtSample) .onil))

/-- C1 (counterexample): the observed service is ACTIVE, its deployment
configuration has minimumHealthyPercent 50, the caller supplies
min_healthy_percent 0 which differs from 50, yet check_for_update is falsy
and the decision is NoOp — a supplied 0 is dropped by the truthiness test,
so not every supplied field is compared. -/
theorem C1_counterexample :
    exService.items.lookup "status" = some (.pstr "ACTIVE") ∧
    exService.items.lookup "deploymentConfiguration" =
      some (.pdict [("minimumHealthyPercent", 50), ("maximumPercent", 200)]) ∧
    (⟨some 2, some 0, none⟩ : DesiredParams).min_healthy_percent = some 0 ∧
    check_for_update ⟨some 2, some 0, none⟩ exService "td3" = .ok false ∧
    decide_active ⟨some 2, some 0, none⟩ exService "td3" = .ok .NoOp :=
  ⟨rfl, rfl, rfl, rfl, rfl⟩

/-- C1 (amended): for an ACTIVE service, a difference in the resolved task
definition, in the supplied desired count (including a supplied 0, since
desiredCount always enters the target dict), or in a supplied truthy
(non-zero) min healthy percent or max percent whose deployment
configuration entry is a dict, makes check_for_update truthy and the
decision Update; only a supplied 0 for min healthy percent or max percent
is dropped by the truthiness test and not compared. -/
theorem C1_update_detected (desired : DesiredParams) (e : Existing) (arn : String)
    (h : ("taskDefinition", PVal.pstr arn) ∉ e.items ∨
         ("desiredCount", optIntToPVal desired.desired_count) ∉ e.items ∨
         (∃ xs, e.items.lookup "deploymentConfiguration" = some (.pdict xs) ∧
           ((truthyOptInt desired.min_healthy_percent = true ∧
             ("minimumHealthyPercent", desired.min_healthy_percent.getD 0) ∉ xs) ∨
            (truthyOptInt desired.max_percent = true ∧
             ("maximumPercent", desired.max_percent.getD 0) ∉ xs)))) :
    decide_active desired e arn = .ok .Update := by
  have hcfu : check_for_update desired e arn = .ok true := by
    unfold check_for_update
    by_cases hA : ("taskDefinition", PVal.pstr arn) ∈ e.items
    · by_cases hB : ("desiredCount", optIntToPVal desired.desired_count) ∈ e.items
      · rcases h with h | h | ⟨xs, hxs, h⟩
        · exact absurd hA h
        · exact absurd hB h
        · rcases h with ⟨hmin, hnotin⟩ | ⟨hmax, hnotin⟩
          · simp [List.filter_cons, hA, hB, hxs, hmin, hnotin]
          · by_cases hmin : truthyOptInt desired.min_healthy_percent
            · simp only [List.filter_cons, List.filter_nil, List.filter_append, hA, hB,
                hxs, hmin, hmax, hnotin]
              simp [List.filter_cons, hnotin]
            · simp only [Bool.not_eq_true] at hmin
              simp [List.filter_cons, hA, hB, hxs, hmin, hmax, hnotin]
      · simp [List.filter_cons, hA, hB]
    · simp [List.filter_cons, hA]
  unfold decide_active
  rw [hcfu]
  rfl

/-- C9: when both top-level target fields (the resolved task definition ARN
and the desired count) match the observed items, at least one of min
healthy percent or max percent is supplied with a truthy value, and the
observed service has no deploymentConfiguration entry, check_for_update
raises instead of returning a decision. -/
theorem C9_missing_dc_raises (desired : DesiredParams) (e : Existing) (arn : String)
    (hA : ("taskDefinition", PVal.pstr arn) ∈ e.items)
    (hB : ("desiredCount", optIntToPVal desired.desired_count) ∈ e.items)
    (hdc : truthyOptInt desired.min_healthy_percent = true ∨
           truthyOptInt desired.max_percent = true)
    (hmissing : e.items.lookup "deploymentConfiguration" = none) :
    check_for_update desired e arn = .error attrErrItems := by
  unfold check_for_update
  simp only [hmissing, Option.getD_none]
  rcases hdc with hdc | hdc
  · simp [List.filter_cons, hA, hB, hdc]
  · by_cases hmin : truthyOptInt desired.min_healthy_percent
    · simp [List.filter_cons, hA, hB, hmin, hdc]
    · simp only [Bool.not_eq_true] at hmin
      simp [List.filter_cons, hA, hB, hmin, hdc]

/-- C9 (witness): concrete instance with matching top-level fields, a
truthy supplied min healthy percent, and no deploymentConfiguration entry
on the observed service. -/
theorem C9_missing_dc_raises_witness :
    check_for_update ⟨some 2, some 50, none⟩ obsC8 "tdarn3" = .error attrErrItems :=
  C9_missing_dc_raises ⟨some 2, some 50, none⟩ obsC8 "tdarn3"
    (by decide) (by decide) (Or.inl rfl) rfl

/-- C1 (witness): a supplied desired count 4 against an observed desired
count 2 on an ACTIVE service yields the Update decision. -/
theorem C1_update_detected_witness :
    decide_active ⟨some 4, none, none⟩ exService "td3" = .ok .Update :=
  C1_update_detected ⟨some 4, none, none⟩ exService "td3"
    (Or.inr (Or.inl (by decide)))

/-- C2: a waited delete issues the zero-count update, the delete call, and
then requests the waiter named services_stable — the stable readiness
predicate — not a waiter for the INACTIVE status, although the surrounding
code and the module documentation describe waiting for INACTIVE. -/
theorem C2_delete_polls_stable_waiter :
    (delete_service oAllOk "default" "svc-a" true).fst =
      [.updateService (update_args "default" "svc-a" (some 0) none none none),
       .deleteService "default" "svc-a",
       .wait "services_stable" "default" "svc-a",
       .describeServices "default" "svc-a"] ∧
    (∀ c s, ApiCall.wait "services_inactive" c s ∉
      (delete_service oAllOk "default" "svc-a" true).fst) := by
  have heq : (delete_service oAllOk "default" "svc-a" true).fst =
      [.updateService (update_args "default" "svc-a" (some 0) none none none),
       .deleteService "default" "svc-a",
       .wait "services_stable" "default" "svc-a",
       .describeServices "default" "svc-a"] := rfl
  refine ⟨heq, fun c s => ?_⟩
  rw [heq]
  simp

/-- C4 (counterexample): a delete invocation against an absent service
completes successfully with changed false — main falls through to a plain
successful exit — rather than failing with a not-found error. -/
theorem C4_counterexample :
    main_run pAbsent oAbsent false =
      ([ApiCall.describeServices "default" "svc-a"], .ok ⟨false, none⟩) := rfl

/-- C4 (amended): every delete invocation for which the fetched service is
absent or not ACTIVE is an idempotent successful no-op: the run exits
normally with changed false after the single describe call, and no delete
is attempted. -/
theorem C4_absent_delete_noop (p : Params) (o : Oracle) (check_mode : Bool)
    (h1 : p.state = "absent")
    (h2 : existingActive o.describeServicesResp = false) :
    main_run p o check_mode =
      ([ApiCall.describeServices p.cluster p.name], .ok ⟨false, none⟩) := by
  unfold main_run validate_inputs describe_services
  simp [h1, h2]

/-- C4 (witness): the amended statement at a concrete absent service. -/
theorem C4_absent_delete_noop_witness :
    main_run pAbsent oAbsent true =
      ([ApiCall.describeServices "default" "svc-a"], .ok ⟨false, none⟩) :=
  C4_absent_delete_noop pAbsent oAbsent true rfl rfl

/-- C5: in every delete invocation, wherever the deleteService call occurs
in the issued call sequence, the update call forcing desiredCount to 0
occurs strictly before it: the delete call is never issued without the
zero-count update having been issued first. -/
theorem C5_zero_update_before_delete (o : Oracle) (c s : String) (w : Bool) :
    ∀ pre post,
      (delete_service o c s w).fst = pre ++ ApiCall.deleteService c s :: post →
      ApiCall.updateService (update_args c s (some 0) none none none) ∈ pre := by
  intro pre post hsplit
  have hhead : ∃ rest, (delete_service o c s w).fst =
      ApiCall.updateService (update_args c s (some 0) none none none) :: rest := by
    cases hu : o.updateOk <;> cases hd : o.deleteOk <;> cases hw : o.waiterOk <;>
      cases w <;>
      simp [delete_service, update_service, hu, hd, hw]
  obtain ⟨rest, hrest⟩ := hhead
  rw [hrest] at hsplit
  cases pre with
  | nil => simp at hsplit
  | cons x pre' =>
    rw [List.cons_append] at hsplit
    injection hsplit with h1 _
    subst h1
    exact List.mem_cons_self _ _

/-- C5 (witness): the concrete waited delete sequence, split around its
delete call, has the zero-count update in the prefix. -/
theorem C5_zero_update_before_delete_witness :
    ApiCall.updateService (update_args "default" "svc-a" (some 0) none none none) ∈
      [ApiCall.updateService (update_args "default" "svc-a" (some 0) none none none)] :=
  C5_zero_update_before_delete oAllOk "default" "svc-a" true
    [.updateService (update_args "default" "svc-a" (some 0) none none none)]
    [.wait "services_stable" "default" "svc-a",
     .describeServices "default" "svc-a"] rfl

/-- Partial load-balancer configurations, with one, two or three of the
four fields supplied, fail the chained None-equality test. -/
theorem lb_mixed_inconsistent (p : Params)
    (hcount : suppliedLbFields p = 1 ∨ suppliedLbFields p = 2 ∨ suppliedLbFields p = 3) :
    lbConsistent p = false := by
  rcases p with ⟨_, _, _, _, lb, cn, cp, rl, _, _, _, _, _⟩
  cases lb <;> cases cn <;> cases cp <;> cases rl <;>
    simp [suppliedLbFields, lbConsistent] at hcount ⊢

/-- Configurations with all four or none of the load-balancer fields
supplied pass the chained None-equality test. -/
theorem lb_total_consistent (p : Params)
    (hcount : suppliedLbFields p = 0 ∨ suppliedLbFields p = 4) :
    lbConsistent p = true := by
  rcases p with ⟨_, _, _, _, lb, cn, cp, rl, _, _, _, _, _⟩
  cases lb <;> cases cn <;> cases cp <;> cases rl <;>
    simp [suppliedLbFields, lbConsistent] at hcount ⊢

/-- C6: with state present, supplying exactly one, two or three of
load_balancer, container_name, container_port and role makes the run fail
during input validation, with an empty call trace — no collaborator call
and no mutation; supplying none or all four passes the load-balancer
check. -/
theorem C6_lb_validation (p : Params) (o : Oracle) (check_mode : Bool)
    (h : p.state = "present") :
    ((suppliedLbFields p = 1 ∨ suppliedLbFields p = 2 ∨ suppliedLbFields p = 3) →
      ∃ msg, main_run p o check_mode = ([], .error msg)) ∧
    ((suppliedLbFields p = 0 ∨ suppliedLbFields p = 4) → lbConsistent p = true) := by
  constructor
  · intro hcount
    have hval : ∃ msg, validate_inputs p = some msg := by
      unfold validate_inputs
      rw [if_pos h]
      cases hdc : p.desired_count with
      | none => exact ⟨_, rfl⟩
      | some n =>
        cases htd : p.task_definition with
        | none => simp
        | some td =>
          have hlb := lb_mixed_inconsistent p hcount
          simp [hlb]
    obtain ⟨msg, hmsg⟩ := hval
    refine ⟨msg, ?_⟩
    unfold main_run
    rw [hmsg]
  · exact lb_total_consistent p

/-- C6 (witness): supplying only load_balancer among the four fields is
rejected with an empty call trace. -/
theorem C6_lb_validation_witness :
    ∃ msg, main_run pPartialLb oAllOk false = ([], .error msg) :=
  (C6_lb_validation pPartialLb oAllOk false rfl).1 (Or.inl rfl)

/-- C7: the argument dict submitted by update_service only ever contains
the keys cluster, service, desiredCount, taskDefinition and
deploymentConfiguration; in particular no role, loadBalancers,
containerName or containerPort key is ever present, whatever the desired
spec contains. -/
theorem C7_update_args_no_lb (c s : String) (dc : Option Int) (td : Option String)
    (mhp mp : Option Int) :
    (∀ k v, (k, v) ∈ update_args c s dc td mhp mp →
      k = "cluster" ∨ k = "service" ∨ k = "desiredCount" ∨ k = "taskDefinition" ∨
      k = "deploymentConfiguration") ∧
    (∀ v, ("role", v) ∉ update_args c s dc td mhp mp ∧
      ("loadBalancers", v) ∉ update_args c s dc td mhp mp ∧
      ("containerName", v) ∉ update_args c s dc td mhp mp ∧
      ("containerPort", v) ∉ update_args c s dc td mhp mp) := by
  have hkeys : ∀ k v, (k, v) ∈ update_args c s dc td mhp mp →
      k = "cluster" ∨ k = "service" ∨ k = "desiredCount" ∨ k = "taskDefinition" ∨
      k = "deploymentConfiguration" := by
    intro k v hmem
    unfold update_args at hmem
    cases h1 : truthyOptStr td <;> cases h2 : truthyOptInt mhp <;>
      cases h3 : truthyOptInt mp <;>
      simp [h1, h2, h3] at hmem <;> tauto
  refine ⟨hkeys, fun v => ⟨fun hmem => ?_, fun hmem => ?_, fun hmem => ?_, fun hmem => ?_⟩⟩ <;>
    rcases hkeys _ _ hmem with h | h | h | h | h <;> simp at h

/-- C7 (witness): at a fully supplied update, the role key is absent from
the submitted argument dict. -/
theorem C7_update_args_no_lb_witness :
    ("role", PVal.pstr "ecsServiceRole") ∉
      update_args "default" "svc-a" (some 4) (some "td3") (some 50) (some 200) :=
  ((C7_update_args_no_lb "default" "svc-a" (some 4) (some "td3") (some 50)
    (some 200)).2 (PVal.pstr "ecsServiceRole")).1

/-- C8 (counterexample): a run supplying only the desired count (no task
definition) against the observed ACTIVE service with desired count 2 does
not invoke updateService at all: it fails input validation with an empty
call trace, because state present requires a task definition. -/
theorem C8_counterexample :
    main_run pOnlyCount oC8 false =
      ([], .error "To ensure the service is present, a task_definition must be specified") :=
  rfl

/-- C8 (amended): through main the claimed scenario is rejected by input
validation before any call; the claimed call shape holds whenever the
update path runs with a falsy task definition parameter: with the observed
ACTIVE service at desired count 2 and a supplied desired count 4 with an
empty-string task definition, the run decides Update and invokes
updateService with exactly the keys cluster, service and desiredCount 4 —
no taskDefinition key in the call. -/
theorem C8_update_call_shape :
    main_run pEmptyTd oC8 false =
      ([.describeServices "default" "svc-a",
        .describeTaskDefinition "",
        .updateService
          [("cluster", .pstr "default"), ("service", .pstr "svc-a"),
           ("desiredCount", .pint 4)]],
       .ok ⟨true, some (some exService)⟩) :=
  rfl

mutual

/-- Normalization succeeds on any value free of foreign (non-datetime,
non-JSON) objects, and its output contains no native datetime. -/
theorem fix_datetime_ok (v : JVal) (h : hasForeign v = false) :
    ∃ w, fix_datetime v = .ok w ∧ hasDatetime w = false := by
  cases v with
  | jnull => exact ⟨.jnull, rfl, rfl⟩
  | jbool b => exact ⟨.jbool b, rfl, rfl⟩
  | jint n => exact ⟨.jint n, rfl, rfl⟩
  | jstr s => exact ⟨.jstr s, rfl, rfl⟩
  | jdatetime d => exact ⟨.jstr d.isoformat, rfl, rfl⟩
  | junserializable t => simp [hasForeign] at h
  | jarr xs =>
    obtain ⟨w, hw, hd⟩ := fix_datetime_arr_ok xs (by simpa [hasForeign] using h)
    exact ⟨.jarr w, by simp [fix_datetime, hw, Except.map], by simpa [hasDatetime] using hd⟩
  | jobj xs =>
    obtain ⟨w, hw, hd⟩ := fix_datetime_obj_ok xs (by simpa [hasForeign] using h)
    exact ⟨.jobj w, by simp [fix_datetime, hw, Except.map], by simpa [hasDatetime] using hd⟩

/-- List form of fix_datetime_ok. -/
theorem fix_datetime_arr_ok (xs : JArr) (h : hasForeignArr xs = false) :
    ∃ w, fix_datetime_arr xs = .ok w ∧ hasDatetimeArr w = false := by
  cases xs with
  | anil => exact ⟨.anil, rfl, rfl⟩
  | acons v rest =>
    rw [hasForeignArr] at h
    rw [Bool.or_eq_false_iff] at h
    obtain ⟨wv, hv, hdv⟩ := fix_datetime_ok v h.1
    obtain ⟨wr, hr, hdr⟩ := fix_datetime_arr_ok rest h.2
    refine ⟨.acons wv wr, ?_, ?_⟩
    · rw [fix_datetime_arr, hv, hr]
      rfl
    · rw [hasDatetimeArr, hdv, hdr]
      rfl

/-- Dict form of fix_datetime_ok. -/
theorem fix_datetime_obj_ok (xs : JObj) (h : hasForeignObj xs = false) :
    ∃ w, fix_datetime_obj xs = .ok w ∧ hasDatetimeObj w = false := by
  cases xs with
  | onil => exact ⟨.onil, rfl, rfl⟩
  | ocons k v rest =>
    rw [hasForeignObj] at h
    rw [Bool.or_eq_false_iff] at h
    obtain ⟨wv, hv, hdv⟩ := fix_datetime_ok v h.1
    obtain ⟨wr, hr, hdr⟩ := fix_datetime_obj_ok rest h.2
    refine ⟨.ocons k wv wr, ?_, ?_⟩
    · rw [fix_datetime_obj, hv, hr]
      rfl
    · rw [hasDatetimeObj, hdv, hdr]
      rfl

end

/-- C3: on every service representation free of foreign objects —
in particular on any representation made of JSON-native values and native
datetimes — fix_datetime succeeds, its output contains no native datetime
value, and every native datetime field is rendered through json_serial as
its ISO-8601 isoformat string. -/
theorem C3_normalization :
    (∀ v : JVal, hasForeign v = false →
      ∃ w, fix_datetime v = .ok w ∧ hasDatetime w = false) ∧
    (∀ d : PyDatetime, fix_datetime (.jdatetime d) = .ok (.jstr d.isoformat)) ∧
    (∀ d : PyDatetime, json_serial (.jdatetime d) = .ok d.isoformat) :=
  ⟨fun v h => fix_datetime_ok v h, fun _ => rfl, fun _ => rfl⟩

/-- C3 (witness): a concrete service representation carrying a createdAt
datetime normalizes successfully into a datetime-free value. -/
theorem C3_normalization_witness :
    ∃ w, fix_datetime jSample = .ok w ∧ hasDatetime w = false :=
  C3_normalization.1 jSample rfl

/-- C10: a check-mode run issues no mutating collaborator call — every call
in its trace is read-only — and whenever both the check-mode run and the
real run complete, they report the same changed flag, since both use the
same fetch-and-decide logic. -/
theorem C10_check_mode_no_mutation (p : Params) (o : Oracle) :
    ((main_run p o true).fst.all (fun c => !c.isMutating) = true) ∧
    (∀ r r', (main_run p o true).snd = .ok r → (main_run p o false).snd = .ok r' →
      r.changed = r'.changed) := by
  constructor
  · unfold main_run describe_services describe_task_definition
    cases hv : validate_inputs p with
    | some msg => rfl
    | none =>
      by_cases habs : p.state = "absent" ∧ existingActive o.describeServicesResp
      · simp [habs, ApiCall.isMutating]
      · by_cases hpres : p.state = "present"
        · by_cases htd : o.describeTaskDefResp.status = "ACTIVE"
          · by_cases hact : existingActive o.describeServicesResp
            · cases hcfu : check_for_update p.desired
                ((o.describeServicesResp).getD ⟨[]⟩)
                o.describeTaskDefResp.taskDefinitionArn with
              | error e => simp [habs, hpres, htd, hact, hcfu, ApiCall.isMutating]
              | ok b =>
                cases b <;> simp [habs, hpres, htd, hact, hcfu, ApiCall.isMutating]
            · simp [habs, hpres, htd, hact, ApiCall.isMutating]
          · simp [habs, hpres, htd, ApiCall.isMutating]
        · simp [habs, hpres, ApiCall.isMutating]
  · intro r r' hc hr
    unfold main_run describe_services describe_task_definition at hc hr
    cases hv : validate_inputs p with
    | some msg =>
      rw [hv] at hc
      simp at hc
    | none =>
      rw [hv] at hc hr
      by_cases habs : p.state = "absent" ∧ existingActive o.describeServicesResp
      · rcases hdel : delete_service o p.cluster p.name p.wait_until_inactive with
          ⟨tr1, r1⟩
        rw [hdel] at hr
        simp only [habs, if_true, and_self, if_pos] at hc hr
        simp at hc
        cases r1 with
        | error e => simp at hr
        | ok svc =>
          simp at hr
          rw [← hc, ← hr]
      · by_cases hpres : p.state = "present"
        · by_cases htd : o.describeTaskDefResp.status = "ACTIVE"
          · by_cases hact : existingActive o.describeServicesResp
            · cases hcfu : check_for_update p.desired
                ((o.describeServicesResp).getD ⟨[]⟩)
                o.describeTaskDefResp.taskDefinitionArn with
              | error e =>
                simp [habs, hpres, htd, hact, hcfu] at hc
              | ok b =>
                cases b with
                | true =>
                  rcases hupd : update_service o p.wait_until_stable p.cluster p.name
                      p.desired_count p.task_definition p.min_healthy_percent
                      p.max_percent with ⟨tr1, r1⟩
                  rw [hupd] at hr
                  simp [habs, hpres, htd, hact, hcfu] at hc
                  cases r1 with
                  | error e => simp [habs, hpres, htd, hact, hcfu] at hr
                  | ok svc =>
                    simp [habs, hpres, htd, hact, hcfu] at hr
                    rw [← hc, ← hr]
                | false =>
                  simp [habs, hpres, htd, hact, hcfu] at hc hr
                  rw [← hc, ← hr]
            · rcases hcre : create_service o p.wait_until_stable p.cluster p.name
                  p.desired_count p.task_definition p.load_balancer p.container_name
                  p.container_port p.role p.min_healthy_percent p.max_percent with
                ⟨tr1, r1⟩
              rw [hcre] at hr
              simp [habs, hpres, htd, hact] at hc
              cases r1 with
              | error e => simp [habs, hpres, htd, hact] at hr
              | ok svc =>
                simp [habs, hpres, htd, hact] at hr
                rw [← hc, ← hr]
          · simp [habs, hpres, htd] at hc
        · simp [habs, hpres] at hc hr
          rw [← hc, ← hr]

/-- C10 (witness): concrete check-mode run against an ACTIVE service with a
drifted desired count: the trace is read-only and the changed flags of the
check run and the real run agree. -/
theorem C10_check_mode_no_mutation_witness :
    ((main_run pEmptyTd oC8 true).fst.all (fun c => !c.isMutating) = true) ∧
    ((⟨true, none⟩ : MainResult).changed = (⟨true, some (some exService)⟩ : MainResult).changed) :=
  ⟨(C10_check_mode_no_mutation pEmptyTd oC8).1,
   (C10_check_mode_no_mutation pEmptyTd oC8).2 ⟨true, none⟩ ⟨true, some (some exService)⟩
     rfl rfl⟩
